import Mathlib

/-!
# Verification of the OpenVPN process-launch command builder

Shallow embedding of `src/process/openvpn.rs` (`OpenVpnCommand`): the builder
state, its setters, the argument serializer `get_arguments`, the process
description built by `spawn` via `create_command`, and the `Display`
formatter, together with proofs of the specified properties.

Rust `OsString` values (the binary name, paths and argument tokens) are
arbitrary byte sequences on the platforms this code targets; they are
modelled as `List Nat`, one entry per byte.
-/

namespace OpenVpn

/-- A resolved remote endpoint, as produced by the external endpoint
resolver (`net::RemoteAddr`, outside this module): an address string and a
numeric port. The address is a Rust `String`, hence valid text. -/
structure RemoteAddr where
  address : String
  port : Nat
deriving DecidableEq, Repr

/-- An opaque I/O error, as carried by `std::io::Error`. Only its identity
matters to the builder. -/
structure IoError where
  msg : String
deriving DecidableEq, Repr

/-- Standard UTF-8 encoding of one character, as a list of byte values.
Rust `String`/`str` are UTF-8, so `OsString::from(string)` holds exactly
these bytes. -/
def utf8Bytes (c : Char) : List Nat :=
  let n := c.toNat
  if n < 0x80 then
    [n]
  else if n < 0x800 then
    [0xC0 + n / 64, 0x80 + n % 64]
  else if n < 0x10000 then
    [0xE0 + n / 4096, 0x80 + (n / 64) % 64, 0x80 + n % 64]
  else
    [0xF0 + n / 262144, 0x80 + (n / 4096) % 64, 0x80 + (n / 64) % 64, 0x80 + n % 64]

/-- The byte content of the `OsString` obtained from a Rust string
(`OsString::from(s)`): its UTF-8 bytes. -/
def osFromString (s : String) : List Nat :=
  s.data.flatMap utf8Bytes

/-- The builder state of `OpenVpnCommand` (`src/process/openvpn.rs`). -/
structure OpenVpnCommand where
  openvpn_bin : List Nat
  config : Option (List Nat)
  remotes : List RemoteAddr
  plugin : Option (List Nat × List String)
  pipe_output : Bool
deriving DecidableEq, Repr

namespace OpenVpnCommand

/-- Embeds `OpenVpnCommand::new`: all optional fields absent, no remotes,
output piped by default. -/
def new (openvpn_bin : List Nat) : OpenVpnCommand :=
  { openvpn_bin := openvpn_bin
    config := none
    remotes := []
    plugin := none
    pipe_output := true }

/-- Embeds the setter `OpenVpnCommand::config`: replaces the `config` field. -/
def setConfig (c : OpenVpnCommand) (path : List Nat) : OpenVpnCommand :=
  { c with config := some path }

/-- Embeds the setter `OpenVpnCommand::remotes`. The external resolution
step `remotes.to_remote_addrs()` is passed in as its result; the `?`
operator propagates a resolution error before any assignment, so on error
the state is returned untouched. The returned pair is (builder state after
the call, call result). -/
def setRemotes (c : OpenVpnCommand) (resolved : Except IoError (List RemoteAddr)) :
    OpenVpnCommand × Except IoError Unit :=
  match resolved with
  | Except.error e => (c, Except.error e)
  | Except.ok rs => ({ c with remotes := rs }, Except.ok ())

/-- Embeds the setter `OpenVpnCommand::plugin`: replaces the `plugin` field
with the given path and argument list. -/
def setPlugin (c : OpenVpnCommand) (path : List Nat) (args : List String) : OpenVpnCommand :=
  { c with plugin := some (path, args) }

/-- Embeds the setter `OpenVpnCommand::pipe_output`: replaces the
`pipe_output` field. -/
def setPipeOutput (c : OpenVpnCommand) (pipe_output : Bool) : OpenVpnCommand :=
  { c with pipe_output := pipe_output }

/-- Embeds `OpenVpnCommand::get_arguments`. The Rust body pushes onto a
mutable `args` vector: the config flag and path if set, then a loop over
the remotes pushing the remote flag, address and decimal port text, then
the plugin flag, path and arguments if set. The loop is a left fold. -/
def get_arguments (c : OpenVpnCommand) : List (List Nat) :=
  let args : List (List Nat) := []
  let args := match c.config with
    | some config => args ++ [osFromString "--config", config]
    | none => args
  let args := c.remotes.foldl
    (fun a remote =>
      a ++ [osFromString "--remote", osFromString remote.address,
            osFromString (Nat.repr remote.port)]) args
  let args := match c.plugin with
    | some (path, plugin_args) =>
        args ++ [osFromString "--plugin", path] ++ plugin_args.map osFromString
    | none => args
  args

end OpenVpnCommand

/-! ## The process description built by `spawn` -/

/-- Policy for one standard stream of a child process (`std::process::Stdio`):
inherited (the std default), piped to the parent, or the null sink. -/
inductive Stdio where
  | inherit
  | piped
  | null
deriving DecidableEq, Repr

/-- The observable process description accumulated by `std::process::Command`:
program, argument list, and the three standard-stream policies. -/
structure Command where
  program : List Nat
  args : List (List Nat)
  stdin : Stdio
  stdout : Stdio
  stderr : Stdio
deriving DecidableEq, Repr

/-- Embeds `std::process::Command::new`: the named program, no arguments,
all three standard streams inherited (the std default). -/
def Command.new (program : List Nat) : Command :=
  { program := program
    args := []
    stdin := Stdio.inherit
    stdout := Stdio.inherit
    stderr := Stdio.inherit }

/-- Embeds `OpenVpnCommand::get_output_pipe_policy`: piped when
`pipe_output` is set, the null sink otherwise. -/
def OpenVpnCommand.get_output_pipe_policy (c : OpenVpnCommand) : Stdio :=
  if c.pipe_output then Stdio.piped else Stdio.null

/-- Embeds `OpenVpnCommand::create_command`: a fresh `Command` on the
binary, with stdin set to null and stdout/stderr set to the output pipe
policy. -/
def OpenVpnCommand.create_command (c : OpenVpnCommand) : Command :=
  { Command.new c.openvpn_bin with
      stdin := Stdio.null
      stdout := c.get_output_pipe_policy
      stderr := c.get_output_pipe_policy }

/-- Embeds the process description that `OpenVpnCommand::spawn` hands to
the operating system: `create_command` extended with the serialized
arguments (`command.args(&args)` appends). The OS call itself is external. -/
def OpenVpnCommand.spawnCommand (c : OpenVpnCommand) : Command :=
  let command := c.create_command
  let args := c.get_arguments
  { command with args := command.args ++ args }

/-! ## Lossy text conversion and the Display formatter -/

/-- Modelled from the spec: the whitespace test used when quoting display
tokens (`char::is_whitespace` of the Rust standard library, which is not
part of this repository): true exactly on characters with the Unicode
White_Space property. -/
def rustCharIsWhitespace (c : Char) : Bool :=
  let n := c.toNat
  (0x09 ≤ n && n ≤ 0x0D) || n == 0x20 || n == 0x85 || n == 0xA0 || n == 0x1680 ||
    (0x2000 ≤ n && n ≤ 0x200A) || n == 0x2028 || n == 0x2029 || n == 0x202F ||
    n == 0x205F || n == 0x3000

/-- The Unicode replacement character U+FFFD. -/
def replacementChar : Char := Char.ofNat 0xFFFD

/-- True when the byte is a UTF-8 continuation byte. -/
def isContinuation (b : Nat) : Bool := 0x80 ≤ b && b ≤ 0xBF

/-- Admissible range test for the second byte of a multi-byte UTF-8
sequence with the given lead byte, ruling out overlong encodings,
surrogates and values above U+10FFFF. -/
def secondByteOk (lead b : Nat) : Bool :=
  if lead == 0xE0 then 0xA0 ≤ b && b ≤ 0xBF
  else if lead == 0xED then 0x80 ≤ b && b ≤ 0x9F
  else if lead == 0xF0 then 0x90 ≤ b && b ≤ 0xBF
  else if lead == 0xF4 then 0x80 ≤ b && b ≤ 0x8F
  else isContinuation b

/-- Modelled from the spec: lossy UTF-8 decoding of a byte sequence
(`OsStr::to_string_lossy` of the Rust standard library, which is not part
of this repository) — valid UTF-8 decodes to its characters, and the
standard replacement character is substituted at each invalid position.
The first argument is recursion fuel, at least the length of the list. -/
def lossyDecode : Nat → List Nat → List Char
  | 0, _ => []
  | _ + 1, [] => []
  | fuel + 1, b :: rest =>
    if b < 0x80 then
      Char.ofNat b :: lossyDecode fuel rest
    else if 0xC2 ≤ b && b ≤ 0xDF then
      match rest with
      | b2 :: rest2 =>
        if isContinuation b2 then
          Char.ofNat ((b - 0xC0) * 64 + (b2 - 0x80)) :: lossyDecode fuel rest2
        else replacementChar :: lossyDecode fuel rest
      | [] => [replacementChar]
    else if 0xE0 ≤ b && b ≤ 0xEF then
      match rest with
      | b2 :: b3 :: rest3 =>
        if secondByteOk b b2 && isContinuation b3 then
          Char.ofNat ((b - 0xE0) * 4096 + (b2 - 0x80) * 64 + (b3 - 0x80)) ::
            lossyDecode fuel rest3
        else replacementChar :: lossyDecode fuel rest
      | _ => replacementChar :: lossyDecode fuel rest
    else if 0xF0 ≤ b && b ≤ 0xF4 then
      match rest with
      | b2 :: b3 :: b4 :: rest4 =>
        if secondByteOk b b2 && isContinuation b3 && isContinuation b4 then
          Char.ofNat
              ((b - 0xF0) * 262144 + (b2 - 0x80) * 4096 + (b3 - 0x80) * 64 + (b4 - 0x80)) ::
            lossyDecode fuel rest4
        else replacementChar :: lossyDecode fuel rest
      | _ => replacementChar :: lossyDecode fuel rest
    else
      replacementChar :: lossyDecode fuel rest

/-- Lossy conversion of an `OsString` byte sequence to text. -/
def toStringLossy (bs : List Nat) : String :=
  String.mk (lossyDecode bs.length bs)

/-- Embeds the helper `write_argument` of `src/process/openvpn.rs`: the
formatter state is the text written so far; write a space, then the
argument, wrapped in double quotes when it contains a whitespace character
(`arg.contains(char::is_whitespace)`). -/
def write_argument (acc : String) (arg : String) : String :=
  let acc := acc ++ " "
  let quote := arg.any rustCharIsWhitespace
  let acc := if quote then acc ++ "\"" else acc
  let acc := acc ++ arg
  if quote then acc ++ "\"" else acc

/-- Embeds `impl fmt::Display for OpenVpnCommand`: write the lossy
conversion of the binary, then each lossily converted serialized argument
through `write_argument`. -/
def OpenVpnCommand.fmtDisplay (c : OpenVpnCommand) : String :=
  (c.get_arguments.map (fun arg => toStringLossy arg)).foldl write_argument
    (toStringLossy c.openvpn_bin)

/-! ## The argument grammar, stated from the specification

`[--config <path>] [--remote <addr> <port>]* [--plugin <path> <arg>*]`:
each section below is written from the words of the spec, to be compared with
`get_arguments` as translated from the source. -/

/-- Grammar section for `config`: if set, the token `--config` then the
config path; otherwise nothing. -/
def configSection (config : Option (List Nat)) : List (List Nat) :=
  match config with
  | some path => [osFromString "--config", path]
  | none => []

/-- Grammar tokens for one remote: `--remote`, the address text, the
decimal text of the port. -/
def remoteTokens (r : RemoteAddr) : List (List Nat) :=
  [osFromString "--remote", osFromString r.address, osFromString (Nat.repr r.port)]

/-- Grammar section for `remotes`: for each remote in order, its tokens. -/
def remoteSection (remotes : List RemoteAddr) : List (List Nat) :=
  remotes.flatMap remoteTokens

/-- Grammar section for `plugin`: if set, `--plugin`, the plugin path, and
each plugin argument in its given order; otherwise nothing. -/
def pluginSection (plugin : Option (List Nat × List String)) : List (List Nat) :=
  match plugin with
  | some (path, args) => [osFromString "--plugin", path] ++ args.map osFromString
  | none => []

/-- Rendering of one display token as the specification states it: a
single leading space, then the token, wrapped in double quotes exactly
when it contains a whitespace character, with no internal escaping. -/
def renderToken (t : String) : String :=
  " " ++ (if t.any rustCharIsWhitespace then "\"" ++ t ++ "\"" else t)

/-- The display rendering as the specification states it: the lossy
conversion of the binary, followed by each lossily converted serialized
token rendered by `renderToken`, in order. -/
def displaySpec (c : OpenVpnCommand) : String :=
  toStringLossy c.openvpn_bin
    ++ String.join (c.get_arguments.map (fun arg => renderToken (toStringLossy arg)))

/-- Joining a list of strings peels off its head. -/
theorem join_cons (s : String) (ss : List String) :
    String.join (s :: ss) = s ++ String.join ss := by
  apply String.ext
  simp

/-- One step of the Display loop appends the rendering of the token. -/
theorem write_argument_eq (acc t : String) :
    write_argument acc t = acc ++ renderToken t := by
  unfold write_argument renderToken
  cases h : t.any rustCharIsWhitespace <;> simp [h, String.append_assoc]
  rfl

/-- The Display loop appends the renderings of all tokens in order. -/
theorem foldl_write_argument (l : List String) (acc : String) :
    l.foldl write_argument acc = acc ++ String.join (l.map renderToken) := by
  induction l generalizing acc with
  | nil => simp [String.join]
  | cons t ts ih =>
      simp only [List.foldl_cons, List.map_cons, write_argument_eq, ih, join_cons,
        String.append_assoc]

/-- The left fold in `get_arguments` appends the remote sections onto its
accumulator. -/
theorem foldl_remotes_eq (remotes : List RemoteAddr) (acc : List (List Nat)) :
    remotes.foldl
      (fun a remote =>
        a ++ [osFromString "--remote", osFromString remote.address,
              osFromString (Nat.repr remote.port)]) acc
      = acc ++ remoteSection remotes := by
  induction remotes generalizing acc with
  | nil => simp [remoteSection]
  | cons r rs ih =>
      simp only [List.foldl_cons, ih, remoteSection, List.flatMap_cons]
      simp [remoteTokens, List.append_assoc]

/-- Characters produced by `Nat.digitChar` below base ten are the decimal
digit characters. -/
theorem digitChar_is_digit (m : Nat) (h : m < 10) :
    48 ≤ (Nat.digitChar m).toNat ∧ (Nat.digitChar m).toNat ≤ 57 := by
  interval_cases m <;> decide

/-- Every character of the decimal conversion is a decimal digit, provided
the accumulator holds only decimal digits. -/
theorem toDigitsCore_digits (fuel n : Nat) (ds : List Char)
    (hds : ∀ c ∈ ds, 48 ≤ c.toNat ∧ c.toNat ≤ 57) :
    ∀ c ∈ Nat.toDigitsCore 10 fuel n ds, 48 ≤ c.toNat ∧ c.toNat ≤ 57 := by
  induction fuel generalizing n ds with
  | zero => simpa [Nat.toDigitsCore] using hds
  | succ fuel ih =>
      have hcons : ∀ c ∈ Nat.digitChar (n % 10) :: ds, 48 ≤ c.toNat ∧ c.toNat ≤ 57 := by
        intro c hc
        rcases List.mem_cons.mp hc with rfl | hc
        · exact digitChar_is_digit _ (Nat.mod_lt _ (by decide))
        · exact hds c hc
      simp only [Nat.toDigitsCore]
      split
      · exact hcons
      · exact ih _ _ hcons

/-- The decimal conversion never returns an empty list from a nonempty
accumulator. -/
theorem toDigitsCore_ne_nil (fuel : Nat) : ∀ (n : Nat) (d : Char) (ds : List Char),
    Nat.toDigitsCore 10 fuel n (d :: ds) ≠ [] := by
  induction fuel with
  | zero => intro n d ds; simp [Nat.toDigitsCore]
  | succ fuel ih =>
      intro n d ds
      simp only [Nat.toDigitsCore]
      split
      · simp
      · exact ih _ _ _

/-- The decimal text of a natural number starts with a decimal digit
character. -/
theorem repr_head_digit (n : Nat) :
    ∃ c cs, (Nat.repr n).data = c :: cs ∧ 48 ≤ c.toNat ∧ c.toNat ≤ 57 := by
  have hdig := toDigitsCore_digits (n + 1) n [] (by simp)
  have hne : Nat.toDigitsCore 10 (n + 1) n [] ≠ [] := by
    simp only [Nat.toDigitsCore]
    split
    · simp
    · exact toDigitsCore_ne_nil _ _ _ _
  cases hl : Nat.toDigitsCore 10 (n + 1) n [] with
  | nil => exact absurd hl hne
  | cons c cs =>
      refine ⟨c, cs, ?_, hdig c (by rw [hl]; exact List.mem_cons_self _ _)⟩
      show (Nat.toDigits 10 n).asString.data = c :: cs
      unfold Nat.toDigits
      rw [hl]
      rfl

/-- The first byte of the UTF-8 encoding of the decimal text of a natural
number is a digit byte. -/
theorem osFromString_repr_head (n : Nat) :
    ∃ b bs, osFromString (Nat.repr n) = b :: bs ∧ 48 ≤ b ∧ b ≤ 57 := by
  obtain ⟨c, cs, hdata, h48, h57⟩ := repr_head_digit n
  refine ⟨c.toNat, cs.flatMap utf8Bytes, ?_, h48, h57⟩
  unfold osFromString
  rw [hdata, List.flatMap_cons]
  have henc : utf8Bytes c = [c.toNat] := by
    unfold utf8Bytes
    rw [if_pos (by omega)]
  rw [henc]
  rfl

/-- The decimal port token can never collide with the remote flag token. -/
theorem port_token_ne_remote (n : Nat) :
    osFromString (Nat.repr n) ≠ osFromString "--remote" := by
  obtain ⟨b, bs, he, h48, _⟩ := osFromString_repr_head n
  intro h
  rw [he] at h
  have hR : osFromString "--remote" = [45, 45, 114, 101, 109, 111, 116, 101] := by decide
  rw [hR] at h
  have : b = 45 := (List.cons.injEq _ _ _ _ ▸ h).1
  omega

/-- The serializer produces the three grammar sections in order. -/
theorem get_arguments_eq_sections (c : OpenVpnCommand) :
    c.get_arguments
      = configSection c.config ++ remoteSection c.remotes ++ pluginSection c.plugin := by
  unfold OpenVpnCommand.get_arguments
  cases hc : c.config <;> cases hp : c.plugin <;>
    simp [configSection, pluginSection, foldl_remotes_eq, List.append_assoc]

/-- The config section never contains the remote flag token, provided the
config path is not itself that token. -/
theorem count_configSection (config : Option (List Nat))
    (h : ∀ p, config = some p → p ≠ osFromString "--remote") :
    List.count (osFromString "--remote") (configSection config) = 0 := by
  cases config with
  | none => simp [configSection]
  | some p =>
      have hp := h p rfl
      have hc : osFromString "--config" ≠ osFromString "--remote" := by decide
      simp [configSection, List.count_cons, beq_iff_eq, hc, hp]

/-- The plugin section never contains the remote flag token, provided
neither the plugin path nor any plugin argument is that token. -/
theorem count_pluginSection (plugin : Option (List Nat × List String))
    (h : ∀ p pargs, plugin = some (p, pargs) → p ≠ osFromString "--remote" ∧
        ∀ a ∈ pargs, osFromString a ≠ osFromString "--remote") :
    List.count (osFromString "--remote") (pluginSection plugin) = 0 := by
  cases plugin with
  | none => simp [pluginSection]
  | some pa =>
      obtain ⟨p, pargs⟩ := pa
      obtain ⟨hp, hargs⟩ := h p pargs rfl
      have hplug : osFromString "--plugin" ≠ osFromString "--remote" := by decide
      have hmap : List.count (osFromString "--remote") (pargs.map osFromString) = 0 := by
        rw [List.count_eq_zero]
        intro hmem
        obtain ⟨a, ha, hae⟩ := List.mem_map.mp hmem
        exact hargs a ha hae
      simp [pluginSection, List.count_append, List.count_cons, beq_iff_eq, hplug, hp, hmap]

/-- The remote section contains the remote flag token exactly once per
remote, provided no address encodes to that token. -/
theorem count_remoteSection : ∀ rs : List RemoteAddr,
    (∀ r ∈ rs, osFromString r.address ≠ osFromString "--remote") →
    List.count (osFromString "--remote") (remoteSection rs) = rs.length := by
  intro rs
  induction rs with
  | nil => intro _; simp [remoteSection]
  | cons r rs ih =>
      intro h
      have h1 : osFromString r.address ≠ osFromString "--remote" :=
        h r (List.mem_cons_self _ _)
      have h2 := port_token_ne_remote r.port
      have hrest := ih (fun x hx => h x (List.mem_cons_of_mem _ hx))
      simp only [remoteSection, List.flatMap_cons, List.count_append] at hrest ⊢
      simp [remoteTokens, List.count_cons, beq_iff_eq, h1, h2, hrest, Nat.add_comm]

/-- The address and port tokens of the remotes appear in the remote
section in their configured order. -/
theorem endpoint_tokens_sublist (rs : List RemoteAddr) :
    List.Sublist
      (rs.flatMap fun r => [osFromString r.address, osFromString (Nat.repr r.port)])
      (remoteSection rs) := by
  induction rs with
  | nil => simp [remoteSection]
  | cons r rs ih =>
      simp only [remoteSection, List.flatMap_cons, remoteTokens] at ih ⊢
      simp only [List.cons_append, List.nil_append]
      exact List.Sublist.cons _ (List.Sublist.cons₂ _ (List.Sublist.cons₂ _ ih))

/-! ## The claims -/

/-- C1: for every builder state, `get_arguments` produces exactly the
fixed grammar in the fixed order — the config section, then one section
per remote in order, then the plugin section — and a builder with none of
config, remotes, plugin set serializes to the empty sequence. -/
theorem arguments_follow_grammar (c : OpenVpnCommand) (bin : List Nat) (po : Bool) :
    c.get_arguments
        = configSection c.config ++ remoteSection c.remotes ++ pluginSection c.plugin
      ∧ (OpenVpnCommand.mk bin none [] none po).get_arguments = [] := by
  refine ⟨get_arguments_eq_sections c, ?_⟩
  rw [get_arguments_eq_sections]
  simp [configSection, remoteSection, pluginSection]

/-- C2 as stated is false: the claimed count of remote-flag tokens ignores
collisions with the other raw token positions. A builder with no remotes
but plugin argument list holding the literal text of the remote flag
yields one occurrence of the token `--remote` although N = 0. -/
theorem remote_count_counterexample :
    ((OpenVpnCommand.new []).setPlugin [112] ["--remote"]).remotes = []
  ∧ List.count (osFromString "--remote")
      ((OpenVpnCommand.new []).setPlugin [112] ["--remote"]).get_arguments = 1 :=
  ⟨rfl, by decide⟩

/-- C2 amended: provided the config path, the addresses, the plugin path
and the plugin arguments do not collide with the literal token `--remote`,
the serialized sequence contains exactly one occurrence of `--remote` per
remote; and unconditionally the address/port tokens of the remotes occur
in the sequence in configured order, none dropped. -/
theorem remote_count_and_order (c : OpenVpnCommand) :
    ((∀ p, c.config = some p → p ≠ osFromString "--remote") →
      (∀ r ∈ c.remotes, osFromString r.address ≠ osFromString "--remote") →
      (∀ p pargs, c.plugin = some (p, pargs) → p ≠ osFromString "--remote" ∧
          ∀ a ∈ pargs, osFromString a ≠ osFromString "--remote") →
      List.count (osFromString "--remote") c.get_arguments = c.remotes.length)
  ∧ List.Sublist
      (c.remotes.flatMap fun r => [osFromString r.address, osFromString (Nat.repr r.port)])
      c.get_arguments := by
  constructor
  · intro hconf haddr hplug
    rw [get_arguments_eq_sections, List.count_append, List.count_append,
      count_configSection c.config hconf, count_pluginSection c.plugin hplug,
      count_remoteSection c.remotes haddr]
    omega
  · rw [get_arguments_eq_sections, List.append_assoc]
    exact ((endpoint_tokens_sublist c.remotes).trans
      (List.sublist_append_left _ _)).trans (List.sublist_append_right _ _)

/-- Witness for the amended C2, at a builder with one remote: both the
conditional count conclusion, with its collision-freedom hypotheses
discharged there, and the unconditional order conclusion. -/
theorem remote_count_and_order_witness :
    List.count (osFromString "--remote")
        (OpenVpnCommand.mk [] none [RemoteAddr.mk "a" 80] none true).get_arguments
      = (OpenVpnCommand.mk [] none [RemoteAddr.mk "a" 80] none true).remotes.length
  ∧ List.Sublist
      ((OpenVpnCommand.mk [] none [RemoteAddr.mk "a" 80] none true).remotes.flatMap
        fun r => [osFromString r.address, osFromString (Nat.repr r.port)])
      (OpenVpnCommand.mk [] none [RemoteAddr.mk "a" 80] none true).get_arguments :=
  ⟨(remote_count_and_order (OpenVpnCommand.mk [] none [RemoteAddr.mk "a" 80] none true)).1
      (by simp) (by decide) (by simp),
    (remote_count_and_order (OpenVpnCommand.mk [] none [RemoteAddr.mk "a" 80] none true)).2⟩

/-- C3: a failed resolution returns the error and leaves the whole builder
state exactly as it was before the call. -/
theorem setRemotes_error_no_mutation (c : OpenVpnCommand) (e : IoError) :
    c.setRemotes (Except.error e) = (c, Except.error e) := rfl

/-- C4: serialization is a pure, deterministic function of the builder
fields, and repeating it without mutation yields identical output. -/
theorem get_arguments_deterministic (c₁ c₂ : OpenVpnCommand)
    (hbin : c₁.openvpn_bin = c₂.openvpn_bin) (hconf : c₁.config = c₂.config)
    (hrem : c₁.remotes = c₂.remotes) (hplug : c₁.plugin = c₂.plugin)
    (hpipe : c₁.pipe_output = c₂.pipe_output) :
    c₁.get_arguments = c₂.get_arguments
  ∧ ∀ c : OpenVpnCommand, c.get_arguments = c.get_arguments := by
  have h : c₁ = c₂ := by
    cases c₁
    cases c₂
    simp_all
  rw [h]
  exact ⟨rfl, fun _ => rfl⟩

/-- Witness for C4, at two equal builders. -/
theorem get_arguments_deterministic_witness :
    (OpenVpnCommand.new [55]).get_arguments = (OpenVpnCommand.new [55]).get_arguments
  ∧ ∀ c : OpenVpnCommand, c.get_arguments = c.get_arguments :=
  get_arguments_deterministic (OpenVpnCommand.new [55]) (OpenVpnCommand.new [55])
    rfl rfl rfl rfl rfl

/-- C5: the display rendering is the lossy conversion of the binary
followed by, for each serialized token in order, a leading space and the
lossily converted token, double-quoted exactly when it contains a
whitespace character, with no internal escaping. -/
theorem display_matches_spec (c : OpenVpnCommand) :
    c.fmtDisplay = displaySpec c := by
  unfold OpenVpnCommand.fmtDisplay displaySpec
  rw [foldl_write_argument, List.map_map]
  rfl

/-- C6: the process description built by `spawn` always discards the
standard input of the child, and connects standard output and standard
error to pipes exactly when `pipe_output` is set, to the null sink
otherwise. -/
theorem spawn_stdio_policy (c : OpenVpnCommand) :
    c.spawnCommand.stdin = Stdio.null
  ∧ c.spawnCommand.stdout = (if c.pipe_output then Stdio.piped else Stdio.null)
  ∧ c.spawnCommand.stderr = (if c.pipe_output then Stdio.piped else Stdio.null) :=
  ⟨rfl, rfl, rfl⟩

/-- C7: argument serialization and display formatting are total over every
builder state; in particular a binary consisting of the invalid byte 0xFF
still formats, to the replacement character. -/
theorem serialization_display_total :
    (∀ c : OpenVpnCommand, ∃ args, c.get_arguments = args)
  ∧ (∀ c : OpenVpnCommand, ∃ s, c.fmtDisplay = s)
  ∧ (OpenVpnCommand.new [0xFF]).fmtDisplay = "�" := by
  refine ⟨fun c => ⟨_, rfl⟩, fun c => ⟨_, rfl⟩, ?_⟩
  decide

/-- C8: a successful resolution fully replaces the stored remotes — also
on a second call, also with a shorter or empty list — and never appends. -/
theorem setRemotes_replaces (c : OpenVpnCommand) (rs₁ rs₂ : List RemoteAddr) :
    ((c.setRemotes (Except.ok rs₁)).1.setRemotes (Except.ok rs₂)).1.remotes = rs₂
  ∧ (c.setRemotes (Except.ok rs₁)).1.setRemotes (Except.ok rs₂)
      = ({ (c.setRemotes (Except.ok rs₁)).1 with remotes := rs₂ }, Except.ok ()) :=
  ⟨rfl, rfl⟩

/-- C9: the serialized arguments do not depend on the binary path, and the
empty builder over the empty binary serializes to the empty sequence. -/
theorem arguments_binary_independent (c : OpenVpnCommand) (bin : List Nat) :
    ({ c with openvpn_bin := bin } : OpenVpnCommand).get_arguments = c.get_arguments
  ∧ (OpenVpnCommand.new []).get_arguments = [] := by
  cases c
  exact ⟨rfl, rfl⟩

/-- C10: each of the config, plugin and output-capture setters modifies
only its own field. -/
theorem setters_frame (c : OpenVpnCommand) (path : List Nat) (pargs : List String) (b : Bool) :
    ((c.setConfig path).remotes = c.remotes ∧ (c.setConfig path).plugin = c.plugin
      ∧ (c.setConfig path).pipe_output = c.pipe_output
      ∧ (c.setConfig path).openvpn_bin = c.openvpn_bin)
  ∧ ((c.setPlugin path pargs).config = c.config ∧ (c.setPlugin path pargs).remotes = c.remotes
      ∧ (c.setPlugin path pargs).pipe_output = c.pipe_output
      ∧ (c.setPlugin path pargs).openvpn_bin = c.openvpn_bin)
  ∧ ((c.setPipeOutput b).config = c.config ∧ (c.setPipeOutput b).remotes = c.remotes
      ∧ (c.setPipeOutput b).plugin = c.plugin
      ∧ (c.setPipeOutput b).openvpn_bin = c.openvpn_bin) :=
  ⟨⟨rfl, rfl, rfl, rfl⟩, ⟨rfl, rfl, rfl, rfl⟩, ⟨rfl, rfl, rfl, rfl⟩⟩

end OpenVpn
